import Mathlib

/-!
Verification of the multi-source security-check aggregation engine of the
QR-shield repository.  The engine lives in
supabase/functions/security-scan/index.ts: the request handler runs one
block per configured provider (VirusTotal, Google Safe Browsing,
URLScan.io, IPInfo), always runs a local URL validation block, and reduces
the collected SecurityCheck list to an overall risk label.  The client
files (src/unnamed/part_001 and part_002) re-derive the overall risk from
a check list in two further places.

The embedding below translates those handler blocks into Lean functions.
Provider HTTP interactions are modelled by the HttpResult type: the fetch
or the body read may throw (network error, runtime timeout rejection,
non-JSON body), or an HTTP response arrives carrying a status code and a
parsed JSON body.  The handler never reads the HTTP status code of any
response, which the model makes explicit by carrying the code and never
inspecting it.  The platform URL constructor is modelled as an explicit
parameter jsURL : String -> Option URLObj, since its parsing behaviour is
a browser/runtime builtin, not repository code.
-/

namespace QRShield

/-- Check status values, from the SecurityCheck interface in
supabase/functions/security-scan/index.ts (lines 7-13). -/
inductive Status where
  | pending
  | passed
  | failed
  | warning
deriving DecidableEq

/-- Overall risk labels computed by the handler (index.ts lines 191-196). -/
inductive Risk where
  | LOW
  | MEDIUM
  | HIGH
deriving DecidableEq

/-- One engine verdict inside the VirusTotal report payload. -/
structure EngineVerdict where
  result : String
  detected : Bool
deriving DecidableEq

/-- Parsed VirusTotal URL-report body: response_code, aggregate counts and
the per-engine verdict map (index.ts lines 32-42). -/
structure VTData where
  response_code : Nat
  positives : Nat
  total : Nat
  scans : List (String × EngineVerdict)
deriving DecidableEq

/-- The normalized result unit (index.ts lines 7-13).  The engines field
is populated only by the VirusTotal block, with the whole parsed report. -/
structure SecurityCheck where
  name : String
  status : Status
  description : String
  details : Option String := none
  engines : Option VTData := none
deriving DecidableEq

/-- Outcome of one provider HTTP interaction as observed by a handler
block.  throws covers every point where the awaited call rejects: DNS
failure, connection refused, a runtime-level timeout rejection, or a
response body that is not JSON (response with body none).  response
carries the HTTP status code and the parsed JSON body; the handler code
never reads the status code of any provider response. -/
inductive HttpResult (α : Type) where
  | throws
  | response (httpStatus : Nat) (body : Option α)

/-- Result pushed by the VirusTotal catch branch (index.ts lines 52-60). -/
def vtErrorCheck : SecurityCheck :=
  { name := "VirusTotal Scan", status := .warning,
    description := "Failed to check with VirusTotal",
    details := some "Service temporarily unavailable" }

/-- VirusTotal block (index.ts lines 28-61): on a parsed body with
response_code 1, failed/passed by positives with the full report attached
as engines; on any other parsed body, the not-found warning; on a throw,
the catch-branch warning. -/
def vtAdapter (r : HttpResult VTData) : SecurityCheck :=
  match r with
  | .throws => vtErrorCheck
  | .response _ none => vtErrorCheck
  | .response _ (some vtData) =>
    if vtData.response_code = 1 then
      { name := "VirusTotal Scan",
        status := if vtData.positives > 0 then .failed else .passed,
        description := "Scanned by " ++ toString vtData.total ++ " engines",
        details := some (if vtData.positives > 0 then
            toString vtData.positives ++ " engines detected threats"
          else "No threats detected"),
        engines := some vtData }
    else
      { name := "VirusTotal Scan", status := .warning,
        description := "URL not found in VirusTotal database",
        details := some "This URL has not been previously scanned" }

/-- One threat match inside a Safe Browsing response. -/
structure GSBMatch where
  threatType : String
deriving DecidableEq

/-- Parsed Safe Browsing body: the matches field may be absent. -/
structure GSBData where
  «matches» : Option (List GSBMatch)
deriving DecidableEq

/-- JavaScript expression gsbData.«matches»[0]?.threatType as interpolated
into a template literal: the first match threat type, or the text
undefined when there is no first match. -/
def jsFirstThreatType (ms : Option (List GSBMatch)) : String :=
  match ms with
  | some (m :: _) => m.threatType
  | _ => "undefined"

/-- Result pushed by the Safe Browsing catch branch (index.ts 95-103). -/
def gsbErrorCheck : SecurityCheck :=
  { name := "Google Safe Browsing", status := .warning,
    description := "Failed to check with Google Safe Browsing",
    details := some "Service temporarily unavailable" }

/-- Google Safe Browsing block (index.ts lines 64-104): failed iff the
parsed body has a non-empty matches array, else passed; a throw gives the
catch-branch warning. -/
def gsbAdapter (r : HttpResult GSBData) : SecurityCheck :=
  match r with
  | .throws => gsbErrorCheck
  | .response _ none => gsbErrorCheck
  | .response _ (some gsbData) =>
    let status : Status :=
      match gsbData.«matches» with
      | some l => if l.length > 0 then .failed else .passed
      | none => .passed
    { name := "Google Safe Browsing", status,
      description := "Google\x27s threat detection service",
      details := some (if status = .failed then
          "Detected: " ++ jsFirstThreatType gsbData.«matches»
        else "No threats detected") }

/-- Parsed URLScan.io submission body: the uuid field may be absent. -/
structure ScanData where
  uuid : Option String
deriving DecidableEq

/-- Result pushed by the URLScan.io catch branch (index.ts 131-139). -/
def urlscanErrorCheck : SecurityCheck :=
  { name := "URLScan.io Analysis", status := .warning,
    description := "Failed to initiate URLScan.io analysis",
    details := some "Service temporarily unavailable" }

/-- URLScan.io block (index.ts lines 107-140): any parsed body yields a
passed check whose details embed the first 8 characters of the uuid (the
text undefined when the field is absent); a throw gives the catch-branch
warning. -/
def urlscanAdapter (r : HttpResult ScanData) : SecurityCheck :=
  match r with
  | .throws => urlscanErrorCheck
  | .response _ none => urlscanErrorCheck
  | .response _ (some scanData) =>
    { name := "URLScan.io Analysis", status := .passed,
      description := "Deep URL and website analysis",
      details := some ("Scan initiated - UUID: " ++
        (match scanData.uuid with
         | some u => u.take 8
         | none => "undefined") ++ "...") }

/-- Parsed IPInfo body; every field may be absent. -/
structure IPData where
  city : Option String
  country : Option String
  org : Option String
deriving DecidableEq

/-- JavaScript fallback x || "Unknown" on a possibly-absent string field:
absent and empty strings are falsy. -/
def jsOrUnknown (v : Option String) : String :=
  match v with
  | some s => if s = "" then "Unknown" else s
  | none => "Unknown"

/-- Result pushed by the IPInfo catch branch (index.ts 156-164). -/
def ipinfoErrorCheck : SecurityCheck :=
  { name := "IP Geolocation Check", status := .warning,
    description := "Failed to get IP information",
    details := some "Service temporarily unavailable" }

/-- Result of the platform URL constructor on a parsable input: the
fields the handler reads. -/
structure URLObj where
  protocol : String
  hostname : String
deriving DecidableEq

/-- IPInfo block (index.ts lines 143-165): new URL(url) runs first inside
the try, so an unparsable url lands in the catch branch; otherwise a
parsed body yields a passed informational check and a throw gives the
catch-branch warning. -/
def ipinfoAdapter (jsURL : String → Option URLObj) (url : String)
    (r : HttpResult IPData) : SecurityCheck :=
  match jsURL url with
  | none => ipinfoErrorCheck
  | some _ =>
    match r with
    | .throws => ipinfoErrorCheck
    | .response _ none => ipinfoErrorCheck
    | .response _ (some ipData) =>
      { name := "IP Geolocation Check", status := .passed,
        description := "IP address and location analysis",
        details := some ("Location: " ++ jsOrUnknown ipData.city ++ ", " ++
          jsOrUnknown ipData.country ++ " | ISP: " ++ jsOrUnknown ipData.org) }

/-- Local URL validation block (index.ts lines 167-185): exactly one check
in either branch — the SSL/TLS check when the url parses, the failed URL
Validation check when the constructor throws. -/
def localValidation (jsURL : String → Option URLObj) (url : String) :
    List SecurityCheck :=
  match jsURL url with
  | some urlObj =>
    [{ name := "SSL/TLS Security",
       status := if urlObj.protocol = "https:" then .passed else .warning,
       description := "Secure connection validation",
       details := some (if urlObj.protocol = "https:" then
           "Site uses HTTPS encryption"
         else "Site does not use HTTPS - data may be insecure") }]
  | none =>
    [{ name := "URL Validation", status := .failed,
       description := "Invalid URL format",
       details := some "The provided URL is not valid" }]

/-- The apiKeys object of the request body.  An absent provider key and an
empty-string key are both falsy in the JavaScript guards, so both are
modelled as the empty string. -/
structure ApiKeys where
  VIRUSTOTAL_API_KEY : String := ""
  GOOGLE_SAFE_BROWSING_API_KEY : String := ""
  URLSCAN_API_KEY : String := ""
  IPINFO_API_KEY : String := ""
deriving DecidableEq

/-- Environment of one handler run: the platform URL constructor and the
outcome of each provider interaction. -/
structure ScanEnv where
  jsURL : String → Option URLObj
  vt : HttpResult VTData
  gsb : HttpResult GSBData
  urlscan : HttpResult ScanData
  ipinfo : HttpResult IPData

/-- The results array built by the handler (index.ts lines 25-185):
one entry per truthy provider key, in declaration order, then the local
validation entry. -/
def results (env : ScanEnv) (url : String) (apiKeys : ApiKeys) :
    List SecurityCheck :=
  (if apiKeys.VIRUSTOTAL_API_KEY ≠ "" then [vtAdapter env.vt] else []) ++
  (if apiKeys.GOOGLE_SAFE_BROWSING_API_KEY ≠ "" then [gsbAdapter env.gsb] else []) ++
  (if apiKeys.URLSCAN_API_KEY ≠ "" then [urlscanAdapter env.urlscan] else []) ++
  (if apiKeys.IPINFO_API_KEY ≠ "" then [ipinfoAdapter env.jsURL url env.ipinfo] else []) ++
  localValidation env.jsURL url

/-- The risk aggregation of the handler (index.ts lines 187-196), with the
locals failedChecks and warningChecks kept as in the source. -/
def overallRisk (results : List SecurityCheck) : Risk :=
  let failedChecks := (results.filter fun r => decide (r.status = Status.failed)).length
  let warningChecks := (results.filter fun r => decide (r.status = Status.warning)).length
  if failedChecks > 0 then .HIGH
  else if warningChecks > 1 then .MEDIUM
  else .LOW

/-- The whole scan: the handler responds with the results array and the
risk derived from it (index.ts lines 198-211). -/
def scan (env : ScanEnv) (url : String) (apiKeys : ApiKeys) :
    List SecurityCheck × Risk :=
  let rs := results env url apiKeys
  (rs, overallRisk rs)

/-- Count of failed-status checks, as computed by the handler local
failedChecks. -/
def failedCount (l : List SecurityCheck) : Nat :=
  (l.filter fun r => decide (r.status = Status.failed)).length

/-- Count of warning-status checks, as computed by the handler local
warningChecks. -/
def warningCount (l : List SecurityCheck) : Nat :=
  (l.filter fun r => decide (r.status = Status.warning)).length

/-- Count of truthy provider keys, the number of provider blocks that
run for a given apiKeys object. -/
def activeCount (apiKeys : ApiKeys) : Nat :=
  (if apiKeys.VIRUSTOTAL_API_KEY ≠ "" then 1 else 0) +
  (if apiKeys.GOOGLE_SAFE_BROWSING_API_KEY ≠ "" then 1 else 0) +
  (if apiKeys.URLSCAN_API_KEY ≠ "" then 1 else 0) +
  (if apiKeys.IPINFO_API_KEY ≠ "" then 1 else 0)

/-- Risk derivation inlined in the downloadReport handler of the page
component (src/unnamed/part_001, lines 148-156): a ternary chain on
Array.prototype.some. -/
def downloadReportRisk (securityChecks : List SecurityCheck) : Risk :=
  if securityChecks.any fun c => decide (c.status = Status.failed) then .HIGH
  else if securityChecks.any fun c => decide (c.status = Status.warning) then .MEDIUM
  else .LOW

/-- getOverallRisk of the SecurityAnalyzer component (src/unnamed/part_002,
lines 597-601). -/
def getOverallRisk (securityChecks : List SecurityCheck) : Risk :=
  if securityChecks.any fun c => decide (c.status = Status.failed) then .HIGH
  else if securityChecks.any fun c => decide (c.status = Status.warning) then .MEDIUM
  else .LOW

lemma failedCount_pos_iff (l : List SecurityCheck) :
    0 < failedCount l ↔ ∃ c ∈ l, c.status = Status.failed := by
  rw [failedCount, ← List.countP_eq_length_filter, List.countP_pos_iff]
  simp

lemma failedCount_eq_zero_iff (l : List SecurityCheck) :
    failedCount l = 0 ↔ ∀ c ∈ l, c.status ≠ Status.failed := by
  rw [failedCount, ← List.countP_eq_length_filter, List.countP_eq_zero]
  simp

lemma warningCount_pos_iff (l : List SecurityCheck) :
    0 < warningCount l ↔ ∃ c ∈ l, c.status = Status.warning := by
  rw [warningCount, ← List.countP_eq_length_filter, List.countP_pos_iff]
  simp

lemma overallRisk_eq (l : List SecurityCheck) :
    overallRisk l = if 0 < failedCount l then Risk.HIGH
      else if 1 < warningCount l then Risk.MEDIUM else Risk.LOW := rfl

lemma getOverallRisk_eq (l : List SecurityCheck) :
    getOverallRisk l = if 0 < failedCount l then Risk.HIGH
      else if 0 < warningCount l then Risk.MEDIUM else Risk.LOW := by
  have h1 : ((l.any fun c => decide (c.status = Status.failed)) = true) ↔
      0 < failedCount l := by
    rw [List.any_eq_true, failedCount_pos_iff]
    simp
  have h2 : ((l.any fun c => decide (c.status = Status.warning)) = true) ↔
      0 < warningCount l := by
    rw [List.any_eq_true, warningCount_pos_iff]
    simp
  rw [getOverallRisk]
  exact if_congr h1 rfl (if_congr h2 rfl rfl)

lemma localValidation_length (jsURL : String → Option URLObj) (url : String) :
    (localValidation jsURL url).length = 1 := by
  cases h : jsURL url <;> simp [localValidation, h]

/-- Shared concrete warning-status check used to instantiate theorems. -/
def wcheck : SecurityCheck :=
  { name := "W", status := Status.warning, description := "d" }

/-- C1: the handler risk aggregation returns HIGH iff at least one check
failed; on a list with zero failed checks it returns MEDIUM iff the
warning count is at least 2, and LOW otherwise. -/
theorem aggregate_risk_spec (checks : List SecurityCheck) :
    (overallRisk checks = Risk.HIGH ↔ ∃ c ∈ checks, c.status = Status.failed) ∧
    ((∀ c ∈ checks, c.status ≠ Status.failed) →
      ((overallRisk checks = Risk.MEDIUM ↔ 2 ≤ warningCount checks) ∧
       (warningCount checks < 2 → overallRisk checks = Risk.LOW))) := by
  rw [overallRisk_eq]
  constructor
  · rw [← failedCount_pos_iff]
    split_ifs with h1 h2 <;> simp_all
  · intro h
    have h0 : failedCount checks = 0 := (failedCount_eq_zero_iff checks).mpr h
    constructor
    · split_ifs with h1 h2 <;> simp_all <;> omega
    · intro hw
      rw [if_neg (by omega), if_neg (by omega)]

/-- C1 witness: a list of two warning checks has zero failed checks and
warning count 2, and the aggregation returns MEDIUM there. -/
theorem aggregate_risk_spec_witness :
    overallRisk [wcheck, wcheck] = Risk.MEDIUM :=
  ((aggregate_risk_spec [wcheck, wcheck]).2 (by decide)).1.mpr (by decide)

/-- C2 counterexample: a Safe Browsing interaction that fails with a
non-2xx HTTP status but carries a parseable JSON error body (no matches
field) yields a passed-status check, not the warning the claim requires;
no adapter block ever inspects the HTTP status code. -/
theorem adapter_non2xx_counterexample :
    (gsbAdapter (HttpResult.response 403 (some { «matches» := none }))).status
        = Status.passed ∧
    (gsbAdapter (HttpResult.response 403 (some { «matches» := none }))).status
        ≠ Status.warning := by
  exact ⟨rfl, by decide⟩

/-- C2 amended: every provider block converts a thrown interaction —
network error, runtime timeout rejection, or a non-JSON response body —
into its fixed warning check whose details say the service is
unavailable, and being total functions the blocks let no error escape;
but a non-2xx response with a parseable JSON body is not special-cased
and flows through normal response parsing. -/
theorem adapter_error_handling (jsURL : String → Option URLObj)
    (url : String) (s : Nat) :
    (vtAdapter .throws = vtErrorCheck ∧
      vtAdapter (.response s none) = vtErrorCheck ∧
      vtErrorCheck.status = Status.warning ∧
      vtErrorCheck.details = some "Service temporarily unavailable") ∧
    (gsbAdapter .throws = gsbErrorCheck ∧
      gsbAdapter (.response s none) = gsbErrorCheck ∧
      gsbErrorCheck.status = Status.warning ∧
      gsbErrorCheck.details = some "Service temporarily unavailable") ∧
    (urlscanAdapter .throws = urlscanErrorCheck ∧
      urlscanAdapter (.response s none) = urlscanErrorCheck ∧
      urlscanErrorCheck.status = Status.warning ∧
      urlscanErrorCheck.details = some "Service temporarily unavailable") ∧
    ((ipinfoAdapter jsURL url .throws).status = Status.warning ∧
      (ipinfoAdapter jsURL url (.response s none)).status = Status.warning ∧
      (ipinfoAdapter jsURL url .throws).details =
        some "Service temporarily unavailable") := by
  refine ⟨⟨rfl, rfl, rfl, rfl⟩, ⟨rfl, rfl, rfl, rfl⟩, ⟨rfl, rfl, rfl, rfl⟩,
    ?_, ?_, ?_⟩ <;>
    cases h : jsURL url <;> simp [ipinfoAdapter, h, ipinfoErrorCheck]

/-- C3: the results array always holds exactly one entry per truthy
provider key plus the single local-validation entry, in every branch of
every block. -/
theorem results_length_spec (env : ScanEnv) (url : String)
    (apiKeys : ApiKeys) :
    (results env url apiKeys).length = activeCount apiKeys + 1 := by
  rw [results, activeCount]
  split_ifs <;> simp [localValidation_length]

/-- Concrete URL-constructor behaviour rejecting every input, matching
the platform constructor on the unparsable inputs used below. -/
def parseNone : String → Option URLObj := fun _ => none

/-- C4 counterexample: on an unparsable URL the single failed check
carries the text Invalid URL format in its description field, while its
details field reads The provided URL is not valid — the claim attributes
the invalid-format text to details. -/
theorem local_validation_details_counterexample :
    localValidation parseNone "not a url" =
      [{ name := "URL Validation", status := Status.failed,
         description := "Invalid URL format",
         details := some "The provided URL is not valid" }] ∧
    some "The provided URL is not valid" ≠ some "invalid URL format" := by
  exact ⟨rfl, by decide⟩

/-- C4 amended: given an unparsable URL the local validation block
contributes exactly one failed check for URL format — description
Invalid URL format, details The provided URL is not valid — and no HTTPS
check; given a parsable URL it contributes exactly one check that is
passed when the scheme is https and warning (never failed) otherwise. -/
theorem local_validation_spec (jsURL : String → Option URLObj)
    (url : String) :
    (jsURL url = none →
      localValidation jsURL url =
        [{ name := "URL Validation", status := Status.failed,
           description := "Invalid URL format",
           details := some "The provided URL is not valid" }]) ∧
    (∀ u, jsURL url = some u →
      ∃ c, localValidation jsURL url = [c] ∧
        c.status = (if u.protocol = "https:" then Status.passed
          else Status.warning) ∧
        c.status ≠ Status.failed) := by
  constructor
  · intro h
    simp [localValidation, h]
  · intro u h
    refine ⟨_, by rw [localValidation, h], rfl, ?_⟩
    dsimp only
    split_ifs <;> decide

/-- C4 witness: instantiation of the unparsable branch at the concrete
input of the claim. -/
theorem local_validation_spec_witness :
    localValidation parseNone "not a url" =
      [{ name := "URL Validation", status := Status.failed,
         description := "Invalid URL format",
         details := some "The provided URL is not valid" }] :=
  (local_validation_spec parseNone "not a url").1 rfl

/-- C5: on a parsed report with response_code 1 the VirusTotal block is
failed iff positives is greater than 0 and passed otherwise, its
description embeds the total engine count, its details state the positive
count or No threats detected, and the engines field carries the whole
report with its per-engine verdict map and aggregate counts; on any other
parsed report the check is a warning without engines. -/
theorem vt_adapter_spec (s : Nat) (d : VTData) :
    (d.response_code = 1 →
      (((vtAdapter (.response s (some d))).status = Status.failed ↔
          0 < d.positives) ∧
       ((vtAdapter (.response s (some d))).status = Status.passed ↔
          d.positives = 0) ∧
       (vtAdapter (.response s (some d))).description =
         "Scanned by " ++ toString d.total ++ " engines" ∧
       (vtAdapter (.response s (some d))).details =
         some (if d.positives > 0 then
             toString d.positives ++ " engines detected threats"
           else "No threats detected") ∧
       (vtAdapter (.response s (some d))).engines = some d)) ∧
    (d.response_code ≠ 1 →
      (vtAdapter (.response s (some d))).status = Status.warning ∧
      (vtAdapter (.response s (some d))).engines = none) := by
  constructor
  · intro h
    have hv : vtAdapter (.response s (some d)) =
        { name := "VirusTotal Scan",
          status := if d.positives > 0 then .failed else .passed,
          description := "Scanned by " ++ toString d.total ++ " engines",
          details := some (if d.positives > 0 then
              toString d.positives ++ " engines detected threats"
            else "No threats detected"),
          engines := some d } := by
      rw [vtAdapter, if_pos h]
    rw [hv]
    refine ⟨?_, ?_, rfl, rfl, rfl⟩
    · rcases Nat.eq_zero_or_pos d.positives with hp | hp <;> simp_all
    · rcases Nat.eq_zero_or_pos d.positives with hp | hp
      · simp_all
      · simp_all
        omega
  · intro h
    rw [vtAdapter]
    simp [h]

/-- Report body of the spec example: positives 3 of total 70 engines. -/
def vtExample : VTData :=
  { response_code := 1, positives := 3, total := 70, scans := [] }

/-- C5 witness: the known-resource branch at the spec example, giving a
failed check. -/
theorem vt_adapter_spec_witness :
    (vtAdapter (.response 200 (some vtExample))).status = Status.failed :=
  (((vt_adapter_spec 200 vtExample).1 (by decide)).1).mpr (by decide)

/-- C6 counterexample: a submission rejected with HTTP 400 and a parsed
JSON error body (no uuid field) still yields a passed-status check, not
the warning the claim requires for a failed submission. -/
theorem urlscan_failed_submission_counterexample :
    (urlscanAdapter (HttpResult.response 400 (some { uuid := none }))).status
        = Status.passed ∧
    (urlscanAdapter (HttpResult.response 400 (some { uuid := none }))).status
        ≠ Status.warning := by
  exact ⟨rfl, by decide⟩

/-- C6 amended: a successful submission whose parsed body carries the
scan uuid yields a passed check whose details embed the first 8
characters of the uuid as a receipt reference, and a submission whose
request or body read throws yields the warning check; but any parsed
response body at all — even a non-2xx error body without a uuid — also
yields a passed check. -/
theorem urlscan_adapter_spec (s : Nat) (d : ScanData) (u : String) :
    (d.uuid = some u →
      (urlscanAdapter (.response s (some d))).status = Status.passed ∧
      (urlscanAdapter (.response s (some d))).details =
        some ("Scan initiated - UUID: " ++ u.take 8 ++ "...")) ∧
    (urlscanAdapter .throws = urlscanErrorCheck ∧
     urlscanAdapter (.response s none) = urlscanErrorCheck) ∧
    (urlscanAdapter (.response s (some d))).status = Status.passed := by
  refine ⟨fun h => ⟨rfl, ?_⟩, ⟨rfl, rfl⟩, rfl⟩
  rw [urlscanAdapter, h]

/-- C6 witness: a successful submission with a concrete uuid gives
details holding its first 8 characters. -/
theorem urlscan_adapter_spec_witness :
    (urlscanAdapter
        (.response 200 (some { uuid := some "0123456789abcdef" }))).details
      = some "Scan initiated - UUID: 01234567..." := by
  have h := ((urlscan_adapter_spec 200 { uuid := some "0123456789abcdef" }
    "0123456789abcdef").1 rfl).2
  rw [h]
  decide

/-- C7: with an empty credential set no provider block runs, the handler
returns exactly the local-validation checks with the risk derived purely
from them, and that list has exactly one entry whichever way the URL
parses — in particular 1 or 2 entries as the spec states. -/
theorem empty_credentials_scan (env : ScanEnv) (url : String) :
    scan env url {} =
      (localValidation env.jsURL url,
        overallRisk (localValidation env.jsURL url)) ∧
    (localValidation env.jsURL url).length = 1 := by
  constructor
  · simp [scan, results]
  · exact localValidation_length _ _

/-- C8 counterexample: on a check list holding a single warning check the
handler aggregation yields LOW while the report-download derivation and
the analyzer derivation both yield MEDIUM, so the recomputations do not
all agree. -/
theorem risk_recomputation_counterexample :
    overallRisk [wcheck] = Risk.LOW ∧
    getOverallRisk [wcheck] = Risk.MEDIUM ∧
    downloadReportRisk [wcheck] = Risk.MEDIUM := by
  exact ⟨rfl, rfl, rfl⟩

/-- C8 amended: the overall risk is recomputed from the check list at
every site; the report-download and analyzer derivations coincide with
each other, and they agree with the handler aggregation on every list
whose warning count is not exactly one and on every list with a failed
check — but on a list with zero failed checks and exactly one warning
the handler yields LOW while both client derivations yield MEDIUM. -/
theorem risk_recomputations (checks : List SecurityCheck) :
    downloadReportRisk checks = getOverallRisk checks ∧
    (warningCount checks ≠ 1 →
      getOverallRisk checks = overallRisk checks) ∧
    (0 < failedCount checks →
      getOverallRisk checks = overallRisk checks) ∧
    (failedCount checks = 0 → warningCount checks = 1 →
      overallRisk checks = Risk.LOW ∧
      getOverallRisk checks = Risk.MEDIUM) := by
  refine ⟨rfl, ?_, ?_, ?_⟩
  · intro h
    rw [getOverallRisk_eq, overallRisk_eq]
    split_ifs <;> first | rfl | omega
  · intro h
    rw [getOverallRisk_eq, overallRisk_eq, if_pos h, if_pos h]
  · intro h0 h1
    rw [getOverallRisk_eq, overallRisk_eq]
    constructor
    · rw [if_neg (by omega), if_neg (by omega)]
    · rw [if_neg (by omega), if_pos (by omega)]

/-- C8 witness: on the empty check list the warning count differs from
one and the client derivation agrees with the handler aggregation. -/
theorem risk_recomputations_witness :
    getOverallRisk [] = overallRisk [] :=
  (risk_recomputations []).2.1 (by decide)

/-- C9: two handler runs over the same url and apiKeys observing the same
URL-constructor behaviour and the same provider responses return the same
ordered check list and the same overall risk — the scan is a pure
function of those observations. -/
theorem scan_deterministic (e₁ e₂ : ScanEnv) (url : String)
    (apiKeys : ApiKeys)
    (hj : e₁.jsURL = e₂.jsURL) (hv : e₁.vt = e₂.vt) (hg : e₁.gsb = e₂.gsb)
    (hu : e₁.urlscan = e₂.urlscan) (hi : e₁.ipinfo = e₂.ipinfo) :
    scan e₁ url apiKeys = scan e₂ url apiKeys := by
  obtain ⟨j₁, v₁, g₁, u₁, i₁⟩ := e₁
  obtain ⟨j₂, v₂, g₂, u₂, i₂⟩ := e₂
  dsimp only at hj hv hg hu hi
  subst hj
  subst hv
  subst hg
  subst hu
  subst hi
  rfl

/-- Concrete run environment in which every provider interaction throws
and no input parses as a URL. -/
def env₀ : ScanEnv :=
  { jsURL := parseNone, vt := .throws, gsb := .throws,
    urlscan := .throws, ipinfo := .throws }

/-- C9 witness: instantiation of both runs at the same concrete
environment, url and credential set. -/
theorem scan_deterministic_witness :
    scan env₀ "https://example.com" {} = scan env₀ "https://example.com" {} :=
  scan_deterministic env₀ env₀ "https://example.com" {} rfl rfl rfl rfl rfl

/-- The failed check pushed by the URL-validation catch branch. -/
def urlValidationCheck : SecurityCheck :=
  { name := "URL Validation", status := Status.failed,
    description := "Invalid URL format",
    details := some "The provided URL is not valid" }

/-- C10: whenever the input URL does not parse, whatever providers are
configured and whatever each provider responds, the returned list holds
the failed URL-validation check and the returned overall risk is HIGH. -/
theorem invalid_url_high_risk (env : ScanEnv) (url : String)
    (apiKeys : ApiKeys) (h : env.jsURL url = none) :
    urlValidationCheck ∈ (scan env url apiKeys).1 ∧
    urlValidationCheck.status = Status.failed ∧
    (scan env url apiKeys).2 = Risk.HIGH := by
  have hloc : localValidation env.jsURL url = [urlValidationCheck] := by
    rw [localValidation, h]
    rfl
  have hmem : urlValidationCheck ∈ results env url apiKeys := by
    rw [results, hloc]
    simp
  refine ⟨hmem, rfl, ?_⟩
  show overallRisk (results env url apiKeys) = Risk.HIGH
  rw [overallRisk_eq]
  have hpos : 0 < failedCount (results env url apiKeys) :=
    (failedCount_pos_iff _).mpr ⟨urlValidationCheck, hmem, rfl⟩
  rw [if_pos hpos]

/-- C10 witness: a run in which nothing parses as a URL and every
configured provider throws still reports the failed validation check and
HIGH risk. -/
theorem invalid_url_high_risk_witness :
    urlValidationCheck ∈ (scan env₀ "not a url" {}).1 ∧
    urlValidationCheck.status = Status.failed ∧
    (scan env₀ "not a url" {}).2 = Risk.HIGH :=
  invalid_url_high_risk env₀ "not a url" {} rfl

end QRShield
